import Mathlib

/-!
Shallow embedding of `src/explorer/dockerExplorer.ts` from the
`vscode-docker` repository: the `DockerExplorerProvider` tree-data
provider, its `getChildren`/`getDockerNodes` dispatch, the pagination
helper `listAll`, the subscription enumeration `getSubscriptions`, the
debounced auto-refresh `setAutoRefresh`, and the `DockerNode` record.

Modelling conventions:
* Promise-returning backend calls are modelled as `Except Err` values
  supplied by an environment record `Env`; `await` of a rejected promise
  is `Except.bind` propagating the error, exactly as a rejection
  propagates out of the `async` function, which has no try/catch.
* JS `undefined`/`null` are `Option.none`; JS truthiness of strings
  (`undefined`, `null` and `""` are falsy) is the `truthy` predicate.
* A JS `TypeError` raised by accessing a property of `undefined`
  (e.g. `containers[i].Names[0].substring(1)` with an empty `Names`
  array, or `JSON.parse(body).repositories.length` when the parsed JSON
  has no `repositories` field) is `Err.typeError`.
* The `for (let list = await first; ...)` loop of `listAll` can run
  forever when continuation links cycle, so it takes fuel; exhausted
  fuel is `Err.divergence` and models non-termination.
* Response bodies of the raw HTTP calls are carried pre-parsed in
  `AcrBody`: the code only reads `body.length` and one field of
  `JSON.parse(body)`, so `AcrBody.raw` stands for the body string and
  the optional fields for the parsed lookups (well-formed JSON bodies
  are assumed).
* `path.join(__filename, .., .., .., images, theme, file)` icon paths
  are abstracted to the repo-relative `"images/theme/file"` strings.
-/

namespace VscodeDocker

/-- Errors observable from the async dispatch: a rejected backend
promise (tagged by an arbitrary code chosen by the environment), a JS
`TypeError` from dereferencing `undefined`, and fuel exhaustion standing
for an infinite loop. -/
inductive Err where
  | rejected (code : Nat)
  | typeError
  | divergence
deriving DecidableEq, Repr

/-- JS truthiness of a possibly-undefined string: `undefined`, `null`
and the empty string are falsy. -/
def truthy : Option String → Bool
  | some s => s ≠ ""
  | none => false

/-- JS template-literal interpolation of a possibly-undefined string:
`undefined` prints as the string `"undefined"`. -/
def jsStr : Option String → String
  | some s => s
  | none => "undefined"

/-- `vscode.TreeItemCollapsibleState`. -/
inductive CollapsibleState where
  | none
  | collapsed
  | expanded
deriving DecidableEq, Repr

/-- A light/dark icon path pair. -/
structure IconPath where
  light : String
  dark : String
deriving DecidableEq, Repr

/-- The grey icon used for stopped containers and as the `DockerNode`
constructor default. -/
def monoIcon : IconPath :=
  { light := "images/light/mono_moby_small.png"
    dark := "images/dark/mono_moby_small.png" }

/-- The coloured icon used for running containers. -/
def mobyIcon : IconPath :=
  { light := "images/light/moby_small.png"
    dark := "images/dark/moby_small.png" }

/-- `Docker.ImageDesc`: only the `RepoTags` field is read by the
explorer. `none` models a `null`/absent `RepoTags`; `some []` models a
present but empty array (which is truthy in JS). -/
structure ImageDesc where
  RepoTags : Option (List String)
deriving DecidableEq, Repr

/-- `Docker.ContainerDesc`: the fields read by the containers branch. -/
structure ContainerDesc where
  Names : List String
  Image : String
  Status : String
  State : String
deriving DecidableEq, Repr

/-- `SubscriptionModels.Subscription`: the fields the explorer reads. -/
structure Subscription where
  displayName : Option String
  subscriptionId : Option String
  tenantId : Option String
deriving DecidableEq, Repr

/-- The `SubscriptionItem` record built by `getSubscriptions`; the
session is identified by a numeric id standing for the `AzureSession`
object. -/
structure SubscriptionItem where
  label : String
  description : String
  session : Nat
  subscription : Subscription
deriving DecidableEq, Repr

/-- A Docker Hub repository reference (`namespace`/`name`). -/
structure HubRepoRef where
  namespc : String
  name : String
deriving DecidableEq, Repr

/-- The untyped `DockerNode.repository` field (`any`, default `{}`): it
holds a Docker Hub repository object in the Hub branches and the
registry login-server string in the Azure branches. -/
inductive RepoVal where
  | emptyObj
  | hubRepo (namespc : String) (name : String)
  | server (s : String)
deriving DecidableEq, Repr

/-- JS property read `repository.namespace`: `undefined` unless the
field holds a Hub repository object. -/
def RepoVal.namespc : RepoVal → Option String
  | .hubRepo ns _ => some ns
  | _ => Option.none

/-- JS property read `repository.name`. -/
def RepoVal.name : RepoVal → Option String
  | .hubRepo _ n => some n
  | _ => Option.none

/-- JS string coercion of the `repository` field, as used in
`https:// + element.repository + ...`: an object coerces to
`"[object Object]"`. -/
def RepoVal.asStr : RepoVal → String
  | .server s => s
  | _ => "[object Object]"

/-- The `DockerNode` tree item: label, collapsible state, discriminator
tag, optional command, optional icon, and the optional payload fields.
Defaults mirror the class field initialisers and constructor defaults. -/
structure DockerNode where
  label : String
  collapsibleState : CollapsibleState
  contextValue : String
  command : Option String := Option.none
  iconPath : Option IconPath := some monoIcon
  containerDesc : Option ContainerDesc := Option.none
  imageDesc : Option ImageDesc := Option.none
  repository : RepoVal := RepoVal.emptyObj
  subscription : Option SubscriptionItem := Option.none
  refreshTokenARC : Option String := Option.none
  accessTokenARC : Option String := Option.none
deriving DecidableEq, Repr

/-- A pending `setTimeout` handle scheduled by `setAutoRefresh`,
recording its delay; its firing behaviour is `fireDebounceTimer`. -/
structure Timer where
  delay : Int
deriving DecidableEq, Repr

/-- The mutable fields of `DockerExplorerProvider`: the three category
node references and the debounce timer handle. All start `undefined`. -/
structure ProviderState where
  imagesNode : Option DockerNode := Option.none
  containersNode : Option DockerNode := Option.none
  registriesNode : Option DockerNode := Option.none
  debounceTimer : Option Timer := Option.none
deriving DecidableEq, Repr

/-- The provider state right after construction. -/
def initialState : ProviderState := {}

/-- `refreshImages` fires the change event with `this._imagesNode` as
payload; the returned value is that payload (an `undefined` payload
requests a whole-tree redraw). -/
def refreshImages (s : ProviderState) : Option DockerNode :=
  s.imagesNode

/-- `refreshContainers`: the change-event payload it fires. -/
def refreshContainers (s : ProviderState) : Option DockerNode :=
  s.containersNode

/-- `refreshRegistries`: the change-event payload it fires. -/
def refreshRegistries (s : ProviderState) : Option DockerNode :=
  s.registriesNode

/-- What the debounce timer does when it fires: it calls
`refreshImages()` then `refreshContainers()`, producing these two
change-event payloads in order. -/
def fireDebounceTimer (s : ProviderState) : List (Option DockerNode) :=
  [refreshImages s, refreshContainers s]

/-- `setAutoRefresh`: reads `docker.explorerRefreshInterval` with
default 1000; when the interval is strictly positive it clears the
stored timer handle and stores a freshly scheduled one (wholesale
replacement, so at most one auto-refresh firing is ever pending);
otherwise it does nothing. -/
def setAutoRefresh (configInterval : Option Int) (s : ProviderState) : ProviderState :=
  let interval := configInterval.getD 1000
  if interval > 0 then
    { s with debounceTimer := some { delay := interval } }
  else
    s

/-- `PartialList<T>`: an array page with an optional continuation
link. -/
structure PartialList (α : Type) where
  items : List α
  nextLink : Option String
deriving DecidableEq, Repr

/-- Truthiness of a continuation link (`list.nextLink` in a boolean
position): absent and empty-string links are falsy. -/
def linkTruthy (o : Option String) : Bool :=
  truthy o

/-- The loop update `list = list.nextLink ? await client.listNext(list.nextLink) : []`:
follow a truthy link, otherwise continue with the empty literal `[]`
(no items, no link). -/
def nextList (listNext : String → PartialList α) (list : PartialList α) : PartialList α :=
  match list.nextLink with
  | some s => if s = "" then { items := [], nextLink := Option.none } else listNext s
  | Option.none => { items := [], nextLink := Option.none }

/-- The `for` loop of `listAll`: while `list.length || list.nextLink`,
push the items of the current page and step to the next page. Fuel
bounds the number of iterations; `none` is non-termination. -/
def listAllLoop (listNext : String → PartialList α) : Nat → PartialList α → Option (List α)
  | 0, _ => Option.none
  | fuel + 1, list =>
    if list.items.length ≠ 0 ∨ linkTruthy list.nextLink then
      (listAllLoop listNext fuel (nextList listNext list)).map (fun rest => list.items ++ rest)
    else
      some []

/-- `listAll(client, first)`: accumulate every page reached from
`first` by following continuation links. -/
def listAll (listNext : String → PartialList α) (first : PartialList α) (fuel : Nat) :
    Option (List α) :=
  listAllLoop listNext fuel first

/-- The record pushed for one subscription of one session:
`displayName` (empty string fallback) and `subscriptionId` (same). -/
def subscriptionItemOf (session : Nat) (s : Subscription) : SubscriptionItem :=
  { label := s.displayName.getD ""
    description := s.subscriptionId.getD ""
    session := session
    subscription := s }

/-- The form of the raw `request.post` calls of the Azure token dance:
only the fields the code actually sends. -/
structure HttpForm where
  grant_type : String
  service : String
  tenant : Option String := Option.none
  scope : Option String := Option.none
  refresh_token : Option String := Option.none
  access_token : Option String := Option.none
deriving DecidableEq, Repr

/-- An HTTP response body as observed by the callbacks: `raw` is the
body string (only its length is inspected), and the optional fields are
the `JSON.parse(body)` lookups the code performs, `none` when the field
is absent from the parsed object. -/
structure AcrBody where
  raw : String
  refresh_token : Option String := Option.none
  access_token : Option String := Option.none
  repositories : Option (List String) := Option.none
  tags : Option (List String) := Option.none
deriving DecidableEq, Repr

/-- The environment of backend collaborators: each field is the result
of one awaited external call, an `Except.error` modelling a rejected
promise. Sessions are identified by numeric ids. -/
structure Env where
  /-- `String.prototype.localeCompare`, as a three-way comparator. -/
  localeCompare : String → String → Int
  /-- `docker.getImageDescriptors()`; `ok none` is a null result. -/
  imageDescriptors : Except Err (Option (List ImageDesc))
  /-- `docker.getContainerDescriptors(opts)`, keyed by the status filter. -/
  containerDescriptors : List String → Except Err (Option (List ContainerDesc))
  /-- `azureAccount.waitForLogin()`. -/
  waitForLogin : Except Err Bool
  /-- `azureAccount.sessions`. -/
  sessions : List Nat
  /-- `subscriptionClient.subscriptions.list()` for a session. -/
  subsFirst : Nat → PartialList Subscription
  /-- `subscriptionClient.subscriptions.listNext(link)` for a session. -/
  subsNext : Nat → String → PartialList Subscription
  /-- whether the `keytar` module loaded in the constructor. -/
  keytarAvailable : Bool
  /-- `keytar.getPassword(vscode-docker, dockerhub)`. -/
  keytarStored : Option String
  /-- `dockerHubLogin()`; `ok none` is a cancelled/failed login. -/
  hubLogin : Except Err (Option String)
  /-- `dockerHubAPI.loggedInUser().username`. -/
  hubUser : Except Err String
  /-- `dockerHubAPI.repositories(username)`. -/
  hubRepositories : String → Except Err (List HubRepoRef)
  /-- `dockerHubAPI.repository(namespace, name)`. -/
  hubRepository : String → String → Except Err HubRepoRef
  /-- `dockerHubAPI.tags(namespace, name)`: the tag names. -/
  hubTags : Option String → Option String → Except Err (List String)
  /-- `client.registries.list()` login servers, keyed by subscription id. -/
  acrRegistries : Option String → Except Err (List String)
  /-- `acquireToken(session)`: the `{accessToken, refreshToken}` pair. -/
  acquireToken : Nat → Except Err (Option String × Option String)
  /-- `request.post(url, {form})`: the response body for that call. -/
  httpPost : String → HttpForm → Except Err AcrBody
  /-- `request.get(url, {auth: {bearer}})`: the response body. -/
  httpGet : String → Option String → Except Err AcrBody

/-- The per-session body of the `getSubscriptions` loop followed by the
cross-session accumulation, before sorting. -/
def getSubscriptionsRaw (env : Env) (fuel : Nat) : List Nat → Option (List SubscriptionItem)
  | [] => some []
  | sess :: rest => do
    let subs ← listAll (env.subsNext sess) (env.subsFirst sess) fuel
    let more ← getSubscriptionsRaw env fuel rest
    some (subs.map (subscriptionItemOf sess) ++ more)

/-- `getSubscriptions`: accumulate the paginated subscriptions of every
session, then `subscriptionItems.sort((a, b) => a.label.localeCompare(b.label))`.
The comparator sort is embedded as an insertion sort on the relation
`localeCompare(a.label, b.label) <= 0`, which produces a stable sorted
permutation exactly as the JS sort does for a consistent comparator. -/
def getSubscriptions (env : Env) (fuel : Nat) : Option (List SubscriptionItem) :=
  (getSubscriptionsRaw env fuel env.sessions).map
    (List.insertionSort (fun a b => env.localeCompare a.label b.label ≤ 0))

/-- The nodes produced for one image descriptor: one `<none>:<none>`
node when `RepoTags` is null/undefined (falsy), otherwise one node per
repo-tag. An empty `RepoTags` array is truthy and yields zero nodes. -/
def imageNodes (img : ImageDesc) : List DockerNode :=
  match img.RepoTags with
  | Option.none =>
    [{ label := "<none>:<none>", collapsibleState := CollapsibleState.none,
       contextValue := "image", imageDesc := some img }]
  | some repoTags =>
    repoTags.map (fun t =>
      { label := t, collapsibleState := CollapsibleState.none,
        contextValue := "image", imageDesc := some img })

/-- The check `[exited, dead].includes(state)` of the containers loop. -/
def isStoppedState (state : String) : Bool :=
  (["exited", "dead"] : List String).contains state

/-- The node built for one container descriptor.
`containers[i].Names[0]` is `undefined` when `Names` is empty, so the
following `.substring(1)` raises a `TypeError`. -/
def containerNode (c : ContainerDesc) : Except Err DockerNode :=
  let stopped := isStoppedState c.State
  let contextValue := if stopped then "stoppedContainer" else "runningContainer"
  let iconPath := if stopped then monoIcon else mobyIcon
  match c.Names with
  | [] => .error Err.typeError
  | n :: _ =>
    .ok { label := c.Image ++ " (" ++ n.drop 1 ++ ") [" ++ c.Status ++ "]"
          collapsibleState := CollapsibleState.none
          contextValue := contextValue
          command := Option.none
          iconPath := some iconPath
          containerDesc := some c }

/-- The containers loop: build nodes in order, aborting at the first
descriptor whose name access throws. -/
def containerNodes : List ContainerDesc → Except Err (List DockerNode)
  | [] => .ok []
  | c :: rest => do
    let node ← containerNode c
    let nodes ← containerNodes rest
    .ok (node :: nodes)

/-- The Docker Hub repositories loop: one awaited
`dockerHubAPI.repository` lookup per repository reference. -/
def hubRepoNodes (env : Env) : List HubRepoRef → Except Err (List DockerNode)
  | [] => .ok []
  | ref :: rest => do
    let myRepo ← env.hubRepository ref.namespc ref.name
    let nodes ← hubRepoNodes env rest
    .ok ({ label := myRepo.namespc ++ "/" ++ myRepo.name
           collapsibleState := CollapsibleState.collapsed
           contextValue := "dockerHubRegistryImage"
           command := Option.none
           iconPath := Option.none
           repository := RepoVal.hubRepo myRepo.namespc myRepo.name } :: nodes)

/-- The tail of the `dockerHubRegistry` branch once a login token is in
hand: look up the user, list the repositories, build one collapsed node
per repository carrying the repository record. -/
def hubList (env : Env) : Except Err (List DockerNode) := do
  let username ← env.hubUser
  let myRepos ← env.hubRepositories username
  hubRepoNodes env myRepos

/-- The fixed category nodes built by the top-level branch (label,
collapsed, tag, null command, null icon). -/
def imagesCatNode : DockerNode :=
  { label := "Images", collapsibleState := CollapsibleState.collapsed,
    contextValue := "imagesLabel", command := Option.none, iconPath := Option.none }

/-- The fresh Containers category node. -/
def containersCatNode : DockerNode :=
  { label := "Containers", collapsibleState := CollapsibleState.collapsed,
    contextValue := "containersLabel", command := Option.none, iconPath := Option.none }

/-- The fresh Registries category node. -/
def registriesCatNode : DockerNode :=
  { label := "Registries", collapsibleState := CollapsibleState.collapsed,
    contextValue := "registriesLabel", command := Option.none, iconPath := Option.none }

/-- The three-step token dance of the `azureRegistry` and
`azureRepository` branches, shared by both: POST `/oauth2/exchange`,
POST `/oauth2/token`, then an authenticated GET. Each callback only
assigns its token when the body is non-empty; its `return []` exits the
callback alone, so a failed step leaves the downstream token
`undefined` and the next call is still issued. Returns the final body
together with the two intermediate tokens. -/
def tokenDance (env : Env) (host : String) (service : String) (scope : String)
    (tenantId : Option String) (refreshToken accessToken : Option String)
    (getPath : String) : Except Err (AcrBody × Option String × Option String) := do
  let body1 ← env.httpPost ("https://" ++ host ++ "/oauth2/exchange")
    { grant_type := "access_token_refresh_token", service := service,
      tenant := tenantId, refresh_token := refreshToken, access_token := accessToken }
  let refreshTokenARC : Option String :=
    if body1.raw.length > 0 then body1.refresh_token else Option.none
  let body2 ← env.httpPost ("https://" ++ host ++ "/oauth2/token")
    { grant_type := "refresh_token", service := service,
      scope := some scope, refresh_token := refreshTokenARC }
  let accessTokenARC : Option String :=
    if body2.raw.length > 0 then body2.access_token else Option.none
  let body3 ← env.httpGet ("https://" ++ host ++ getPath) accessTokenARC
  .ok (body3, refreshTokenARC, accessTokenARC)

/-- The `imagesLabel` branch of the dispatch, as a function of the
daemon response: empty on a null or empty listing, otherwise the
per-descriptor nodes in order. -/
def imagesBranch (images : Except Err (Option (List ImageDesc))) :
    Except Err (Option (List DockerNode)) := do
  let images ← images
  match images with
  | Option.none => .ok (some [])
  | some images =>
    if images.length = 0 then .ok (some [])
    else .ok (some (images.flatMap imageNodes))

/-- The `containersLabel` branch of the dispatch, as a function of the
daemon response. -/
def containersBranch (containers : Except Err (Option (List ContainerDesc))) :
    Except Err (Option (List DockerNode)) := do
  let containers ← containers
  match containers with
  | Option.none => .ok (some [])
  | some containers =>
    if containers.length = 0 then .ok (some [])
    else do
      let nodes ← containerNodes containers
      .ok (some nodes)

/-- The fixed Docker Hub node always emitted by the registries branch. -/
def hubRegistryNode : DockerNode :=
  { label := "Docker Hub", collapsibleState := CollapsibleState.collapsed,
    contextValue := "dockerHubRegistry", command := Option.none, iconPath := Option.none }

/-- The node built for one subscription item. -/
def azureSubNode (sub : SubscriptionItem) : DockerNode :=
  { label := sub.label, collapsibleState := CollapsibleState.collapsed,
    contextValue := "azureSubscription", command := Option.none,
    iconPath := Option.none, subscription := some sub }

/-- The `registriesLabel` branch: always the Docker Hub node, followed
by one node per subscription when the cloud session is active. -/
def registriesBranch (env : Env) (fuel : Nat) : Except Err (Option (List DockerNode)) := do
  let loggedIntoAzure ← env.waitForLogin
  if loggedIntoAzure then
    match getSubscriptions env fuel with
    | Option.none => .error Err.divergence
    | some subs => .ok (some (hubRegistryNode :: subs.map azureSubNode))
  else
    .ok (some [hubRegistryNode])

/-- The `dockerHubRegistry` branch: resolve a login token (stored
password, else interactive login caching back to the store), giving up
with an empty result when the login fails; then list the repositories
of the logged-in user. -/
def dockerHubBranch (env : Env) : Except Err (Option (List DockerNode)) :=
  -- the token stays undefined unless keytar loaded and held a password
  let token : Option String := if env.keytarAvailable then env.keytarStored else Option.none
  if truthy token then do
    -- dockerHubAPI.setLoginToken(token): external side effect
    let nodes ← hubList env
    .ok (some nodes)
  else do
    let token ← env.hubLogin
    if truthy token then do
      -- setLoginToken and keytar.setPassword: external side effects
      let nodes ← hubList env
      .ok (some nodes)
    else
      .ok (some [])

/-- The `dockerHubRegistryImage` branch: one leaf node per tag of the
repository carried by the node. -/
def hubImageBranch (env : Env) (element : DockerNode) : Except Err (Option (List DockerNode)) := do
  let myTags ← env.hubTags element.repository.namespc element.repository.name
  .ok (some (myTags.map (fun t =>
    { label := jsStr element.repository.name ++ ":" ++ t,
      collapsibleState := CollapsibleState.none,
      contextValue := "dockerHubRegistryImageTag",
      command := Option.none, iconPath := Option.none })))

/-- The `azureSubscription` branch: list the container registries of
the subscription carried by the node; an absent subscription payload is
a `TypeError` on `element.subscription.session`. -/
def azureSubscriptionBranch (env : Env) (element : DockerNode) :
    Except Err (Option (List DockerNode)) :=
  match element.subscription with
  | Option.none => .error Err.typeError
  | some subItem => do
    let registries ← env.acrRegistries subItem.subscription.subscriptionId
    .ok (some (registries.map (fun loginServer =>
      { label := loginServer, collapsibleState := CollapsibleState.collapsed,
        contextValue := "azureRegistry", command := Option.none,
        iconPath := Option.none, subscription := some subItem })))

/-- The `azureRegistry` branch after the subscription payload has been
dereferenced: acquire the session token pair, and when both tokens are
truthy run the three-step dance against the registry and map the
catalog; with a falsy pair the function falls through every later
branch and resolves `undefined`. -/
def azureRegistryBranch (env : Env) (element : DockerNode) (subItem : SubscriptionItem) :
    Except Err (Option (List DockerNode)) := do
  let tok ← env.acquireToken subItem.session
  if truthy tok.1 && truthy tok.2 then do
    let danced ← tokenDance env element.label element.label "registry:catalog:*"
      subItem.subscription.tenantId tok.2 tok.1 "/v2/_catalog"
    let (body3, refreshTokenARC, accessTokenARC) := danced
    if body3.raw.length > 0 then
      match body3.repositories with
      | Option.none => .error Err.typeError -- repositories.length of undefined
      | some repositories =>
        .ok (some (repositories.map (fun repo =>
          { label := repo, collapsibleState := CollapsibleState.collapsed,
            contextValue := "azureRepository", command := Option.none,
            iconPath := Option.none, repository := RepoVal.server element.label,
            subscription := some subItem,
            accessTokenARC := accessTokenARC, refreshTokenARC := refreshTokenARC })))
    else
      -- vscode.window.showWarningMessage("no repos"); nodes stays empty
      .ok (some [])
  else
    .ok Option.none

/-- The `azureRepository` branch after the subscription payload has
been dereferenced: same three-step dance against the registry host
carried in `element.repository`, then one leaf node per listed tag. -/
def azureRepositoryBranch (env : Env) (element : DockerNode) (subItem : SubscriptionItem) :
    Except Err (Option (List DockerNode)) := do
  let tok ← env.acquireToken subItem.session
  if truthy tok.1 && truthy tok.2 then do
    let danced ← tokenDance env element.repository.asStr element.repository.asStr
      ("repository:" ++ element.label ++ ":pull")
      subItem.subscription.tenantId tok.2 tok.1
      ("/v2/" ++ element.label ++ "/tags/list")
    let (body3, _refreshTokenARC, accessTokenARC) := danced
    -- the callback line `if (err) return []` exits the callback only;
    -- a transport error already rejected the awaited promise
    if body3.raw.length > 0 then
      match body3.tags with
      | Option.none => .error Err.typeError -- tags.length of undefined
      | some tags =>
        .ok (some (tags.map (fun t =>
          { label := element.label ++ ":" ++ t,
            collapsibleState := CollapsibleState.none,
            contextValue := "azureRepositoryTag", command := Option.none,
            iconPath := Option.none, repository := element.repository,
            subscription := element.subscription,
            accessTokenARC := accessTokenARC,
            refreshTokenARC := element.refreshTokenARC })))
    else
      .ok (some [])
  else
    .ok Option.none

/-- The dispatch on `element.contextValue` for a non-top-level node:
the body of `getDockerNodes` after the `if (!element)` branch. These
branches read no provider field other than the keytar handle (in the
environment here) and assign none, so they are state-free; a node whose
tag matches no branch falls off the end of the function and resolves
`undefined` (`Option.none`). -/
def dispatchChild (env : Env) (fuel : Nat) (element : DockerNode) :
    Except Err (Option (List DockerNode)) :=
  if element.contextValue = "imagesLabel" then
    imagesBranch env.imageDescriptors
  else if element.contextValue = "containersLabel" then
    containersBranch (env.containerDescriptors
      ["created", "restarting", "running", "paused", "exited", "dead"])
  else if element.contextValue = "registriesLabel" then
    registriesBranch env fuel
  else if element.contextValue = "dockerHubRegistry" then
    dockerHubBranch env
  else if element.contextValue = "dockerHubRegistryImage" then
    hubImageBranch env element
  else if element.contextValue = "azureSubscription" then
    azureSubscriptionBranch env element
  else if element.contextValue = "azureRegistry" then
    match element.subscription with
    | Option.none => .error Err.typeError -- element.subscription.session of undefined
    | some subItem => azureRegistryBranch env element subItem
  else if element.contextValue = "azureRepository" then
    match element.subscription with
    | Option.none => .error Err.typeError -- element.subscription.session of undefined
    | some subItem => azureRepositoryBranch env element subItem
  else
    -- no branch matches: the function body ends, resolving undefined
    .ok Option.none


/-- `getDockerNodes(element?)`: the top-level branch replaces the three
stored category-node references with freshly constructed nodes and
returns them; any other call dispatches on the discriminator tag and
leaves the provider state untouched. -/
def getDockerNodes (env : Env) (fuel : Nat) (s : ProviderState) (element : Option DockerNode) :
    Except Err (ProviderState × Option (List DockerNode)) :=
  match element with
  | Option.none =>
    .ok ({ s with imagesNode := some imagesCatNode,
                  containersNode := some containersCatNode,
                  registriesNode := some registriesCatNode },
         some [imagesCatNode, containersCatNode, registriesCatNode])
  | some element =>
    (dispatchChild env fuel element).map (fun r => (s, r))

/-- `getChildren(element?)` simply delegates to `getDockerNodes`. -/
def getChildren (env : Env) (fuel : Nat) (s : ProviderState) (element : Option DockerNode) :
    Except Err (ProviderState × Option (List DockerNode)) :=
  getDockerNodes env fuel s element

/-- The discriminator tags handled by some branch of the dispatch. -/
def handledTags : List String :=
  ["imagesLabel", "containersLabel", "registriesLabel", "dockerHubRegistry",
   "dockerHubRegistryImage", "azureSubscription", "azureRegistry", "azureRepository"]

/-- A page chain: `validChain listNext p rest` says the continuation
link of `p` (when truthy) leads through `listNext` to the successive
pages of `rest`, and the last page has a falsy link. -/
def validChain (listNext : String → PartialList α) : PartialList α → List (PartialList α) → Prop
  | p, [] => linkTruthy p.nextLink = false
  | p, q :: rest =>
    (∃ link, p.nextLink = some link ∧ link ≠ "" ∧ listNext link = q) ∧
      validChain listNext q rest

/-- A neutral environment used as the base of the concrete test
environments: every backend resolves with an empty result. -/
def trivialEnv : Env :=
  { localeCompare := fun _ _ => 0
    imageDescriptors := .ok Option.none
    containerDescriptors := fun _ => .ok Option.none
    waitForLogin := .ok false
    sessions := []
    subsFirst := fun _ => { items := [], nextLink := Option.none }
    subsNext := fun _ _ => { items := [], nextLink := Option.none }
    keytarAvailable := false
    keytarStored := Option.none
    hubLogin := .ok Option.none
    hubUser := .ok ""
    hubRepositories := fun _ => .ok []
    hubRepository := fun a b => .ok { namespc := a, name := b }
    hubTags := fun _ _ => .ok []
    acrRegistries := fun _ => .ok []
    acquireToken := fun _ => .ok (Option.none, Option.none)
    httpPost := fun _ _ => .ok { raw := "" }
    httpGet := fun _ _ => .ok { raw := "" } }

/-- A concrete subscription item used by the concrete test runs. -/
def subItemA : SubscriptionItem :=
  { label := "sub", description := "id0", session := 0,
    subscription :=
      { displayName := some "sub", subscriptionId := some "id0", tenantId := some "tenant0" } }

/-- Environment whose token acquisition rejects. -/
def envC1 : Env :=
  { trivialEnv with acquireToken := fun _ => .error (Err.rejected 7) }

/-- An `azureRegistry` node carrying a subscription payload. -/
def nodeRegA : DockerNode :=
  { label := "reg.example", collapsibleState := CollapsibleState.collapsed,
    contextValue := "azureRegistry", iconPath := Option.none,
    subscription := some subItemA }

/-- A leaf node whose tag matches no dispatch branch. -/
def leafImageNode : DockerNode :=
  { label := "a:b", collapsibleState := CollapsibleState.none, contextValue := "image" }

/-- A daemon returning one image descriptor with a present but empty
repo-tag array. -/
def imageDescUntagged : ImageDesc := { RepoTags := some [] }

/-- Environment listing exactly the untagged-with-empty-array image. -/
def envC2 : Env :=
  { trivialEnv with imageDescriptors := .ok (some [imageDescUntagged]) }

/-- A two-tag image descriptor. -/
def imageDescTagged : ImageDesc := { RepoTags := some ["repo:1", "repo:2"] }

/-- Environment listing exactly the two-tag image. -/
def envC2w : Env :=
  { trivialEnv with imageDescriptors := .ok (some [imageDescTagged]) }

/-- Environment for the C3 counterexample: the first exchange call
succeeds, the second token call returns an empty body, yet the
authenticated catalog call answers with one repository. -/
def envC3 : Env :=
  { trivialEnv with
    acquireToken := fun _ => .ok (some "at", some "rt")
    httpPost := fun url _ =>
      if url = "https://reg.example/oauth2/exchange" then
        .ok { raw := "x", refresh_token := some "r1" }
      else
        .ok { raw := "" }
    httpGet := fun _ _ => .ok { raw := "y", repositories := some ["repo1"] } }

/-- The node the C3 counterexample run produces: note the undefined
scoped access token it carries. -/
def nodeC3out : DockerNode :=
  { label := "repo1", collapsibleState := CollapsibleState.collapsed,
    contextValue := "azureRepository", command := Option.none, iconPath := Option.none,
    repository := RepoVal.server "reg.example", subscription := some subItemA,
    accessTokenARC := Option.none, refreshTokenARC := some "r1" }

/-- Environment for the C3 witness: like `envC3` but the catalog call
with the undefined bearer token answers with an empty body. -/
def envC3w : Env :=
  { envC3 with httpGet := fun _ _ => .ok { raw := "" } }

/-- The two-container daemon answer used by the C5 witness: one exited
container and one running container. -/
def envC5 : Env :=
  { trivialEnv with
    containerDescriptors := fun _ => .ok (some
      [{ Names := ["/web"], Image := "nginx", Status := "Exited (0)", State := "exited" },
       { Names := ["/db"], Image := "postgres", Status := "Up 2 hours", State := "running" }]) }

/-- The stopped-group node envC5 produces. -/
def nodeC5stopped : DockerNode :=
  { label := "nginx (web) [Exited (0)]", collapsibleState := CollapsibleState.none,
    contextValue := "stoppedContainer", command := Option.none, iconPath := some monoIcon,
    containerDesc := some
      { Names := ["/web"], Image := "nginx", Status := "Exited (0)", State := "exited" } }

/-- The running-group node envC5 produces. -/
def nodeC5running : DockerNode :=
  { label := "postgres (db) [Up 2 hours]", collapsibleState := CollapsibleState.none,
    contextValue := "runningContainer", command := Option.none, iconPath := some mobyIcon,
    containerDesc := some
      { Names := ["/db"], Image := "postgres", Status := "Up 2 hours", State := "running" } }

/-- Environment for the C6 witness: one session with two subscriptions
listed out of order under a length comparator standing for the locale
comparison. -/
def envC6 : Env :=
  { trivialEnv with
    localeCompare := fun a b => (a.length : Int) - (b.length : Int)
    sessions := [0]
    subsFirst := fun _ =>
      { items :=
          [{ displayName := some "ccc", subscriptionId := some "s1", tenantId := Option.none },
           { displayName := some "b", subscriptionId := some "s2", tenantId := Option.none }],
        nextLink := Option.none } }

/-- The sorted subscription items envC6 produces. -/
def itemsC6 : List SubscriptionItem :=
  [{ label := "b", description := "s2", session := 0,
     subscription := { displayName := some "b", subscriptionId := some "s2",
                       tenantId := Option.none } },
   { label := "ccc", description := "s1", session := 0,
     subscription := { displayName := some "ccc", subscriptionId := some "s1",
                       tenantId := Option.none } }]

/-- A container descriptor whose single name is the empty string. -/
def contDescC9 : ContainerDesc :=
  { Names := [""], Image := "img", Status := "Up", State := "running" }

/-- Environment listing exactly the empty-named container. -/
def envC9 : Env :=
  { trivialEnv with containerDescriptors := fun _ => .ok (some [contDescC9]) }

/-- The node the C9 counterexample run produces: `substring(1)` of the
empty first name is the empty string, no error. -/
def nodeC9out : DockerNode :=
  { label := "img () [Up]", collapsibleState := CollapsibleState.none,
    contextValue := "runningContainer", command := Option.none, iconPath := some mobyIcon,
    containerDesc := some contDescC9 }

/-- Environment for the C9 witness: every listed container has a
non-empty name array. -/
def envC9w : Env :=
  { trivialEnv with
    containerDescriptors := fun _ => .ok (some
      [{ Names := ["/ok"], Image := "alpine", Status := "Up", State := "running" }]) }

section Theorems

/-- Claim C4: `listAll` returns the in-order concatenation of all pages
reached from the first page by following truthy continuation links
until the chain is exhausted, given enough fuel for the loop to finish. -/
theorem c4_listAll_concatenates_pages {α : Type} (listNext : String → PartialList α)
    (first : PartialList α) (rest : List (PartialList α)) (fuel : Nat)
    (hchain : validChain listNext first rest) (hfuel : rest.length + 2 ≤ fuel) :
    listAll listNext first fuel =
      some (first.items ++ (rest.map PartialList.items).flatten) := by
  induction rest generalizing first fuel with
  | nil =>
    obtain ⟨f, rfl⟩ : ∃ f, fuel = f + 2 := ⟨fuel - 2, by omega⟩
    unfold validChain at hchain
    by_cases hitems : first.items.length = 0
    · have : first.items = [] := List.length_eq_zero.mp hitems
      simp [listAll, listAllLoop, hchain, this]
    · have hnl : nextList listNext first = { items := [], nextLink := Option.none } := by
        unfold nextList
        cases hl : first.nextLink with
        | none => rfl
        | some s =>
          simp [linkTruthy, truthy, hl] at hchain
          simp [hchain]
      simp [listAll, listAllLoop, hitems, hnl, linkTruthy, truthy]
  | cons q rest ih =>
    obtain ⟨f, rfl⟩ : ∃ f, fuel = f + 1 := ⟨fuel - 1, by omega⟩
    obtain ⟨⟨link, hlink, hne, hnext⟩, hrest⟩ := hchain
    have hcond : linkTruthy first.nextLink = true := by
      simp [linkTruthy, truthy, hlink, hne]
    have hnl : nextList listNext first = q := by
      simp [nextList, hlink, hne, hnext]
    have hih := ih q f hrest (by simpa using Nat.le_of_succ_le_succ hfuel)
    simp only [listAll] at hih ⊢
    simp [listAllLoop, hcond, hnl, hih]

/-- C4 witness: two linked pages of naturals concatenate in order. -/
theorem c4_witness :
    listAll (fun link => if link = "p2" then { items := [3, 4], nextLink := Option.none }
              else { items := [], nextLink := Option.none })
        { items := [1, 2], nextLink := some "p2" } 3 =
      some (([1, 2] : List Nat) ++
        ([({ items := [3, 4], nextLink := Option.none } : PartialList Nat)].map
          PartialList.items).flatten) :=
  c4_listAll_concatenates_pages _ _ _ 3
    ⟨⟨"p2", rfl, by decide, rfl⟩, rfl⟩ (by decide)

/-- Claim C7: The top-level expansion replaces the three stored category
node references with freshly constructed nodes (constants independent
of the previous state) and leaves every other provider field, here the
debounce timer, untouched; the returned children are those three fresh
nodes. -/
theorem c7_top_level_replaces_category_nodes (env : Env) (fuel : Nat) (s : ProviderState) :
    getDockerNodes env fuel s Option.none =
      .ok ({ s with imagesNode := some imagesCatNode,
                    containersNode := some containersCatNode,
                    registriesNode := some registriesCatNode },
           some [imagesCatNode, containersCatNode, registriesCatNode]) :=
  rfl

/-- Claim C8: The auto-refresh timer is scheduled only for a strictly
positive configured interval: a non-positive interval leaves the state
unchanged and schedules nothing, while a positive interval replaces the
pending timer handle wholesale (one pending firing, never two) with a
timer of that delay, whose firing produces exactly the images and
containers change events in order. -/
theorem c8_auto_refresh_schedule (configInterval : Option Int) (s : ProviderState) :
    (configInterval.getD 1000 ≤ 0 → setAutoRefresh configInterval s = s) ∧
    (0 < configInterval.getD 1000 →
      setAutoRefresh configInterval s =
        { s with debounceTimer := some { delay := configInterval.getD 1000 } }) ∧
    fireDebounceTimer s = [s.imagesNode, s.containersNode] := by
  refine ⟨fun h => ?_, fun h => ?_, rfl⟩
  · simp only [setAutoRefresh]
    rw [if_neg (by omega)]
  · simp only [setAutoRefresh]
    rw [if_pos (by omega)]

/-- C8 witness: interval 0 schedules nothing; interval 250 replaces the
pending timer with a 250ms one. -/
theorem c8_witness :
    setAutoRefresh (some 0) initialState = initialState ∧
    setAutoRefresh (some 250) initialState =
      { initialState with debounceTimer := some { delay := 250 } } :=
  ⟨(c8_auto_refresh_schedule (some 0) initialState).1 (by decide),
   (c8_auto_refresh_schedule (some 250) initialState).2.1 (by decide)⟩

/-- Claim C10: Before the top-level branch has ever run, the three
category node references are still `undefined`, so each refresh signal
fires the change event with an `undefined` payload (a whole-tree
redraw); and no child expansion assigns them, because only the
top-level branch of `getDockerNodes` writes those references. -/
theorem c10_refresh_fires_undefined_before_top_level :
    (refreshImages initialState = Option.none ∧
     refreshContainers initialState = Option.none ∧
     refreshRegistries initialState = Option.none) ∧
    (∀ (env : Env) (fuel : Nat) (s s2 : ProviderState) (n : DockerNode)
       (r : Option (List DockerNode)),
       getDockerNodes env fuel s (some n) = .ok (s2, r) → s2 = s) := by
  refine ⟨⟨rfl, rfl, rfl⟩, fun env fuel s s2 n r h => ?_⟩
  simp only [getDockerNodes] at h
  cases hd : dispatchChild env fuel n with
  | error e => rw [hd] at h; exact absurd h (by simp [Except.map])
  | ok v =>
    rw [hd] at h
    simp [Except.map] at h
    exact h.1.symm

/-- C10 witness: a leaf-tagged expansion run from the initial state
leaves the provider state unchanged. -/
theorem c10_witness : initialState = initialState :=
  c10_refresh_fires_undefined_before_top_level.2 trivialEnv 1 initialState initialState
    { label := "a:b", collapsibleState := CollapsibleState.none, contextValue := "image" }
    Option.none rfl

/-- Reduction of an awaited rejection. -/
theorem except_error_bind {ε α β : Type} (e : ε) (f : α → Except ε β) :
    (Except.error e >>= f) = Except.error e := rfl

/-- Reduction of an awaited resolution. -/
theorem except_ok_bind {ε α β : Type} (a : α) (f : α → Except ε β) :
    (Except.ok a >>= f) = f a := rfl

/-- A child expansion never touches the provider state: it is the
state-free dispatch paired with the unchanged state. -/
theorem getDockerNodes_some_ok {env : Env} {fuel : Nat} {s s2 : ProviderState}
    {n : DockerNode} {r : Option (List DockerNode)}
    (h : getDockerNodes env fuel s (some n) = .ok (s2, r)) :
    s2 = s ∧ dispatchChild env fuel n = .ok r := by
  simp only [getDockerNodes] at h
  cases hd : dispatchChild env fuel n with
  | error e => rw [hd] at h; simp [Except.map] at h
  | ok v =>
    rw [hd] at h
    simp [Except.map] at h
    exact ⟨h.1.symm, by rw [h.2]⟩

/-- A node tagged `imagesLabel` takes the images branch. -/
theorem dispatchChild_eq_imagesBranch {env : Env} {fuel : Nat} {n : DockerNode}
    (hcv : n.contextValue = "imagesLabel") :
    dispatchChild env fuel n = imagesBranch env.imageDescriptors := by
  unfold dispatchChild
  rw [hcv]
  simp

/-- A node tagged `containersLabel` takes the containers branch. -/
theorem dispatchChild_eq_containersBranch {env : Env} {fuel : Nat} {n : DockerNode}
    (hcv : n.contextValue = "containersLabel") :
    dispatchChild env fuel n = containersBranch (env.containerDescriptors
      ["created", "restarting", "running", "paused", "exited", "dead"]) := by
  unfold dispatchChild
  rw [hcv]
  simp

/-- A node tagged `azureRegistry` carrying a subscription payload takes
the registry token-dance branch. -/
theorem dispatchChild_eq_azureRegistryBranch {env : Env} {fuel : Nat} {n : DockerNode}
    {subItem : SubscriptionItem}
    (hcv : n.contextValue = "azureRegistry") (hsub : n.subscription = some subItem) :
    dispatchChild env fuel n = azureRegistryBranch env n subItem := by
  unfold dispatchChild
  rw [hcv, hsub]
  simp

/-- A node tagged `azureRepository` carrying a subscription payload
takes the repository token-dance branch. -/
theorem dispatchChild_eq_azureRepositoryBranch {env : Env} {fuel : Nat} {n : DockerNode}
    {subItem : SubscriptionItem}
    (hcv : n.contextValue = "azureRepository") (hsub : n.subscription = some subItem) :
    dispatchChild env fuel n = azureRepositoryBranch env n subItem := by
  unfold dispatchChild
  rw [hcv, hsub]
  simp

/-- A rejected containers listing propagates. -/
theorem containersBranch_error (e : Err) :
    containersBranch (.error e) = .error e := rfl

/-- A null containers listing yields the empty child list. -/
theorem containersBranch_null :
    containersBranch (.ok Option.none) = .ok (some []) := rfl

/-- A resolved containers listing maps through the node builder. -/
theorem containersBranch_some (l : List ContainerDesc) :
    containersBranch (.ok (some l)) =
      (if l.length = 0 then .ok (some [])
       else do
         let nodes ← containerNodes l
         Except.ok (some nodes)) := rfl

/-- A rejected image listing propagates. -/
theorem imagesBranch_error (e : Err) :
    imagesBranch (.error e) = .error e := rfl

/-- A null image listing yields the empty child list. -/
theorem imagesBranch_null :
    imagesBranch (.ok Option.none) = .ok (some []) := rfl

/-- A resolved image listing maps through the per-descriptor nodes. -/
theorem imagesBranch_some (l : List ImageDesc) :
    imagesBranch (.ok (some l)) =
      (if l.length = 0 then .ok (some [])
       else .ok (some (l.flatMap imageNodes))) := rfl

/-- Inversion of one step of the containers loop. -/
theorem containerNodes_cons_ok {c : ContainerDesc} {rest : List ContainerDesc}
    {nodes : List DockerNode} (h : containerNodes (c :: rest) = .ok nodes) :
    ∃ node tail, containerNode c = .ok node ∧ containerNodes rest = .ok tail ∧
      nodes = node :: tail := by
  unfold containerNodes at h
  cases h1 : containerNode c with
  | error e => rw [h1, except_error_bind] at h; exact absurd h (by simp)
  | ok node =>
    rw [h1, except_ok_bind] at h
    cases h2 : containerNodes rest with
    | error e => rw [h2, except_error_bind] at h; exact absurd h (by simp)
    | ok tail =>
      rw [h2, except_ok_bind] at h
      simp only [Except.ok.injEq] at h
      exact ⟨node, tail, rfl, rfl, h.symm⟩

/-- What a successfully built container node looks like: it carries its
descriptor and is classified by `isStoppedState` into exactly one of
the two tag/icon groups. -/
theorem containerNode_spec {c : ContainerDesc} {node : DockerNode}
    (h : containerNode c = .ok node) :
    node.containerDesc = some c ∧
      (if isStoppedState c.State then
        node.contextValue = "stoppedContainer" ∧ node.iconPath = some monoIcon
      else
        node.contextValue = "runningContainer" ∧ node.iconPath = some mobyIcon) := by
  cases hn : c.Names with
  | nil => simp [containerNode, hn] at h
  | cons a l =>
    by_cases hs : isStoppedState c.State = true
    · simp [containerNode, hn, hs] at h
      simp [← h, hs]
    · simp [containerNode, hn, hs] at h
      simp [← h, hs]

/-- Every node produced by the containers loop comes from one of the
input descriptors. -/
theorem containerNodes_mem {l : List ContainerDesc} {nodes : List DockerNode}
    (h : containerNodes l = .ok nodes) :
    ∀ node ∈ nodes, ∃ c ∈ l, containerNode c = .ok node := by
  induction l generalizing nodes with
  | nil =>
    unfold containerNodes at h
    simp only [Except.ok.injEq] at h
    subst h
    intro x hx
    cases hx
  | cons c rest ih =>
    obtain ⟨node, tail, h1, h2, rfl⟩ := containerNodes_cons_ok h
    intro x hx
    rcases List.mem_cons.mp hx with hx | hx
    · exact ⟨c, List.mem_cons_self c rest, hx ▸ h1⟩
    · obtain ⟨d, hd, hok⟩ := ih h2 x hx
      exact ⟨d, List.mem_cons_of_mem c hd, hok⟩

/-- `isStoppedState` holds exactly on the boundary set. -/
theorem isStoppedState_iff (state : String) :
    isStoppedState state = true ↔ (state = "exited" ∨ state = "dead") := by
  unfold isStoppedState
  rw [List.contains_iff_exists_mem_beq]
  constructor
  · rintro ⟨b, hb, hbeq⟩
    have hsb : state = b := eq_of_beq hbeq
    subst hsb
    rcases List.mem_cons.mp hb with h | hb2
    · exact Or.inl h
    · rcases List.mem_cons.mp hb2 with h | h
      · exact Or.inr h
      · cases h
  · rintro (h | h)
    · exact ⟨"exited", by simp, by simp [h]⟩
    · exact ⟨"dead", by simp, by simp [h]⟩

/-- Claim C5: Every node produced by the containers expansion falls into
exactly one of the two tag/icon groups, and the node of a container
descriptor is in the stopped group exactly when the descriptor state is
in the boundary set, exited or dead; every other state yields the
running group. -/
theorem c5_container_icon_classification (env : Env) (fuel : Nat) (s s2 : ProviderState)
    (n : DockerNode) (nodes : List DockerNode)
    (hcv : n.contextValue = "containersLabel")
    (hres : getDockerNodes env fuel s (some n) = .ok (s2, some nodes)) :
    ∀ node ∈ nodes,
      ((node.contextValue = "stoppedContainer" ∧ node.iconPath = some monoIcon) ∨
       (node.contextValue = "runningContainer" ∧ node.iconPath = some mobyIcon)) ∧
      (∀ c, node.containerDesc = some c →
        (node.contextValue = "stoppedContainer" ↔ (c.State = "exited" ∨ c.State = "dead"))) := by
  obtain ⟨-, hdisp⟩ := getDockerNodes_some_ok hres
  rw [dispatchChild_eq_containersBranch hcv] at hdisp
  have key : nodes = [] ∨ ∃ l, containerNodes l = .ok nodes := by
    cases hd : env.containerDescriptors
        ["created", "restarting", "running", "paused", "exited", "dead"] with
    | error e =>
      rw [hd, containersBranch_error] at hdisp
      exact absurd hdisp (by simp)
    | ok descs =>
      rw [hd] at hdisp
      cases descs with
      | none =>
        rw [containersBranch_null] at hdisp
        simp only [Except.ok.injEq, Option.some.injEq] at hdisp
        exact Or.inl hdisp.symm
      | some l =>
        rw [containersBranch_some] at hdisp
        by_cases hlen : l.length = 0
        · rw [if_pos hlen] at hdisp
          simp only [Except.ok.injEq, Option.some.injEq] at hdisp
          exact Or.inl hdisp.symm
        · rw [if_neg hlen] at hdisp
          cases hcn : containerNodes l with
          | error e =>
            rw [hcn, except_error_bind] at hdisp
            exact absurd hdisp (by simp)
          | ok built =>
            rw [hcn, except_ok_bind] at hdisp
            simp only [Except.ok.injEq, Option.some.injEq] at hdisp
            exact Or.inr ⟨l, by rw [hcn, hdisp]⟩
  rcases key with rfl | ⟨l, hcn⟩
  · intro x hx; cases hx
  · intro node hmem
    obtain ⟨c, -, hok⟩ := containerNodes_mem hcn node hmem
    obtain ⟨hdesc, hclass⟩ := containerNode_spec hok
    refine ⟨?_, ?_⟩
    · by_cases hs : isStoppedState c.State = true
      · rw [if_pos hs] at hclass; exact Or.inl hclass
      · rw [if_neg hs] at hclass; exact Or.inr hclass
    · intro c' hc'
      rw [hdesc] at hc'
      obtain rfl : c = c' := by injection hc'
      by_cases hs : isStoppedState c.State = true
      · rw [if_pos hs] at hclass
        exact ⟨fun _ => (isStoppedState_iff _).mp hs, fun _ => hclass.1⟩
      · rw [if_neg hs] at hclass
        constructor
        · intro hcv2
          rw [hclass.1] at hcv2
          exact absurd hcv2 (by decide)
        · intro hst
          exact absurd ((isStoppedState_iff _).mpr hst) hs

/-- A child expansion is the state-free dispatch paired with the
unchanged state. -/
theorem getDockerNodes_some (env : Env) (fuel : Nat) (s : ProviderState) (n : DockerNode) :
    getDockerNodes env fuel s (some n) =
      (dispatchChild env fuel n).map (fun r => (s, r)) := rfl

/-- C5 witness: the exited container of the concrete two-container run
lands in one of the two icon groups. -/
theorem c5_witness :
    (nodeC5stopped.contextValue = "stoppedContainer" ∧
      nodeC5stopped.iconPath = some monoIcon) ∨
    (nodeC5stopped.contextValue = "runningContainer" ∧
      nodeC5stopped.iconPath = some mobyIcon) :=
  (c5_container_icon_classification envC5 1 initialState initialState containersCatNode
    [nodeC5stopped, nodeC5running] rfl rfl nodeC5stopped (by simp)).1

/-- Claim C6: The subscription items returned by `getSubscriptions` are
sorted by label under the locale comparator, assuming only that the
comparator is (as `localeCompare` is) total and transitive. -/
theorem c6_subscription_items_sorted (env : Env) (fuel : Nat) (items : List SubscriptionItem)
    (htot : ∀ a b : String, env.localeCompare a b ≤ 0 ∨ env.localeCompare b a ≤ 0)
    (htrans : ∀ a b c : String, env.localeCompare a b ≤ 0 → env.localeCompare b c ≤ 0 →
      env.localeCompare a c ≤ 0)
    (h : getSubscriptions env fuel = some items) :
    List.Sorted (fun a b => env.localeCompare a.label b.label ≤ 0) items := by
  unfold getSubscriptions at h
  cases hraw : getSubscriptionsRaw env fuel env.sessions with
  | none => rw [hraw] at h; exact absurd h (by simp)
  | some raw =>
    rw [hraw] at h
    have hx : List.insertionSort
        (fun a b => env.localeCompare a.label b.label ≤ 0) raw = items := by
      simpa using h
    subst hx
    haveI : IsTotal SubscriptionItem (fun a b => env.localeCompare a.label b.label ≤ 0) :=
      ⟨fun a b => htot a.label b.label⟩
    haveI : IsTrans SubscriptionItem (fun a b => env.localeCompare a.label b.label ≤ 0) :=
      ⟨fun a b c hab hbc => htrans a.label b.label c.label hab hbc⟩
    exact List.sorted_insertionSort _ raw

/-- C6 witness: the concrete one-session run comes back sorted under
the concrete comparator. -/
theorem c6_witness :
    List.Sorted (fun a b => envC6.localeCompare a.label b.label ≤ 0) itemsC6 :=
  c6_subscription_items_sorted envC6 2 itemsC6
    (fun a b =>
      show (a.length : Int) - (b.length : Int) ≤ 0 ∨ (b.length : Int) - (a.length : Int) ≤ 0
      by omega)
    (fun a b c hab hbc => by
      have hab2 : (a.length : Int) - (b.length : Int) ≤ 0 := hab
      have hbc2 : (b.length : Int) - (c.length : Int) ≤ 0 := hbc
      show (a.length : Int) - (c.length : Int) ≤ 0
      omega)
    (by rfl)

/-- Claim C1 (amended): The dispatch resolves with an empty child list
when a handled branch finds no data, but an unrecognized or leaf-tagged
node resolves with `undefined` rather than an empty sequence, and a
rejected backend call, whether the daemon listing or the token
acquisition opening the registry HTTP exchange, propagates out of
`getChildren` uncaught. -/
theorem c1_getChildren_error_behaviour :
    (∀ (env : Env) (fuel : Nat) (s : ProviderState) (n : DockerNode),
      n.contextValue ∉ handledTags →
      getChildren env fuel s (some n) = .ok (s, Option.none)) ∧
    (∀ (env : Env) (fuel : Nat) (s : ProviderState) (n : DockerNode),
      n.contextValue = "imagesLabel" → env.imageDescriptors = .ok (some []) →
      getChildren env fuel s (some n) = .ok (s, some [])) ∧
    (∀ (env : Env) (fuel : Nat) (s : ProviderState) (n : DockerNode) (e : Err),
      n.contextValue = "imagesLabel" → env.imageDescriptors = .error e →
      getChildren env fuel s (some n) = .error e) ∧
    (∀ (env : Env) (fuel : Nat) (s : ProviderState) (n : DockerNode)
       (subItem : SubscriptionItem) (e : Err),
      n.contextValue = "azureRegistry" → n.subscription = some subItem →
      env.acquireToken subItem.session = .error e →
      getChildren env fuel s (some n) = .error e) := by
  refine ⟨?_, ?_, ?_, ?_⟩
  · intro env fuel s n h
    simp only [handledTags, List.mem_cons, List.not_mem_nil, or_false, not_or] at h
    obtain ⟨h1, h2, h3, h4, h5, h6, h7, h8⟩ := h
    show getDockerNodes env fuel s (some n) = .ok (s, Option.none)
    rw [getDockerNodes_some]
    unfold dispatchChild
    rw [if_neg h1, if_neg h2, if_neg h3, if_neg h4, if_neg h5, if_neg h6, if_neg h7,
      if_neg h8]
    rfl
  · intro env fuel s n hcv himg
    show getDockerNodes env fuel s (some n) = .ok (s, some [])
    rw [getDockerNodes_some, dispatchChild_eq_imagesBranch hcv, himg, imagesBranch_some]
    rfl
  · intro env fuel s n e hcv himg
    show getDockerNodes env fuel s (some n) = .error e
    rw [getDockerNodes_some, dispatchChild_eq_imagesBranch hcv, himg, imagesBranch_error]
    rfl
  · intro env fuel s n subItem e hcv hsub htok
    show getDockerNodes env fuel s (some n) = .error e
    rw [getDockerNodes_some, dispatchChild_eq_azureRegistryBranch hcv hsub]
    unfold azureRegistryBranch
    rw [htok, except_error_bind]
    rfl

/-- C1 witness: a leaf-tagged node resolves with `undefined`. -/
theorem c1_witness :
    getChildren trivialEnv 1 initialState (some leafImageNode) =
      .ok (initialState, Option.none) :=
  c1_getChildren_error_behaviour.1 trivialEnv 1 initialState leafImageNode (by decide)

/-- C1 counterexample: with a rejecting token acquisition, expanding an
Azure registry node rejects to the caller instead of resolving with an
empty sequence. -/
theorem c1_counterexample :
    getChildren envC1 1 initialState (some nodeRegA) = .error (Err.rejected 7) := rfl

/-- Claim C2 (amended): Expanding the images category returns exactly the
per-descriptor nodes: N nodes for a descriptor whose repo-tag array has
N entries (hence zero nodes for a present but empty array), one
`<none>:<none>` node only when the repo-tag array is null or absent,
and every produced node carries the raw image descriptor. -/
theorem c2_image_expansion_nodes (env : Env) (fuel : Nat) (s : ProviderState)
    (n : DockerNode) (imgs : List ImageDesc)
    (hcv : n.contextValue = "imagesLabel")
    (himgs : env.imageDescriptors = .ok (some imgs)) :
    getDockerNodes env fuel s (some n) = .ok (s, some (imgs.flatMap imageNodes)) ∧
    (∀ img : ImageDesc, ∀ tags, img.RepoTags = some tags →
      (imageNodes img).length = tags.length) ∧
    (∀ img : ImageDesc, img.RepoTags = Option.none →
      imageNodes img =
        [{ label := "<none>:<none>", collapsibleState := CollapsibleState.none,
           contextValue := "image", imageDesc := some img }]) ∧
    (∀ img : ImageDesc, ∀ node ∈ imageNodes img, node.imageDesc = some img) := by
  refine ⟨?_, ?_, ?_, ?_⟩
  · rw [getDockerNodes_some, dispatchChild_eq_imagesBranch hcv, himgs, imagesBranch_some]
    by_cases hlen : imgs.length = 0
    · rw [if_pos hlen]
      obtain rfl : imgs = [] := List.length_eq_zero.mp hlen
      rfl
    · rw [if_neg hlen]
      rfl
  · intro img tags htags
    unfold imageNodes
    rw [htags]
    exact List.length_map tags _
  · intro img hnone
    unfold imageNodes
    rw [hnone]
  · intro img node hmem
    unfold imageNodes at hmem
    cases htags : img.RepoTags with
    | none =>
      rw [htags] at hmem
      rw [List.mem_singleton.mp hmem]
    | some tags =>
      rw [htags] at hmem
      obtain ⟨t, -, heq⟩ := List.mem_map.mp hmem
      rw [← heq]

/-- C2 witness: the two-tag descriptor yields its flat-mapped nodes. -/
theorem c2_witness :
    getDockerNodes envC2w 1 initialState (some imagesCatNode) =
      .ok (initialState, some ([imageDescTagged].flatMap imageNodes)) :=
  (c2_image_expansion_nodes envC2w 1 initialState imagesCatNode [imageDescTagged]
    rfl rfl).1

/-- C2 counterexample: a descriptor with zero repo-tags (a present but
empty array) produces zero display nodes, not one `<none>:<none>`
node. -/
theorem c2_counterexample :
    imageDescUntagged.RepoTags = some [] ∧
    getDockerNodes envC2 1 initialState (some imagesCatNode) =
      .ok (initialState, some []) := ⟨rfl, rfl⟩

/-- A descriptor with a non-empty name array builds its node. -/
theorem containerNode_ok_of_names {c : ContainerDesc} (h : c.Names ≠ []) :
    ∃ node, containerNode c = .ok node := by
  cases hn : c.Names with
  | nil => exact absurd hn h
  | cons a as => exact ⟨_, by unfold containerNode; rw [hn]⟩

/-- When every descriptor has a non-empty name array the whole loop
succeeds. -/
theorem containerNodes_ok_of_names :
    ∀ {l : List ContainerDesc}, (∀ c ∈ l, c.Names ≠ []) →
      ∃ nodes, containerNodes l = .ok nodes
  | [], _ => ⟨[], rfl⟩
  | c :: rest, h => by
    obtain ⟨node, hnode⟩ := containerNode_ok_of_names (h c (List.mem_cons_self c rest))
    obtain ⟨tail, htail⟩ :=
      containerNodes_ok_of_names (fun d hd => h d (List.mem_cons_of_mem c hd))
    exact ⟨node :: tail, by
      unfold containerNodes
      rw [hnode, except_ok_bind, htail, except_ok_bind]⟩

/-- A descriptor with an empty name array makes the loop throw the
`TypeError` of the out-of-bounds name access. -/
theorem containerNodes_err_of_empty :
    ∀ {l : List ContainerDesc}, (∃ c ∈ l, c.Names = []) →
      containerNodes l = .error Err.typeError
  | [], h => absurd h (by simp)
  | c :: rest, h => by
    by_cases hc : c.Names = []
    · unfold containerNodes
      rw [show containerNode c = .error Err.typeError from by simp [containerNode, hc],
        except_error_bind]
    · obtain ⟨d, hd, hnames⟩ := h
      have hd2 : d ∈ rest := by
        rcases List.mem_cons.mp hd with rfl | hm
        · exact absurd hnames hc
        · exact hm
      have htail := containerNodes_err_of_empty ⟨d, hd2, hnames⟩
      obtain ⟨node, hnode⟩ := containerNode_ok_of_names hc
      unfold containerNodes
      rw [hnode, except_ok_bind, htail, except_error_bind]

/-- Claim C9 (amended): The containers expansion is total exactly when
every listed descriptor has a non-empty `Names` array; the first entry
may be any string, the empty string included, because `substring(1)` of
an empty string is safe. With an empty `Names` array the unconditional
first-name access throws and the expansion rejects with that
`TypeError`. -/
theorem c9_containers_totality (env : Env) (fuel : Nat) (s : ProviderState) (n : DockerNode)
    (l : List ContainerDesc)
    (hcv : n.contextValue = "containersLabel")
    (hres : env.containerDescriptors
      ["created", "restarting", "running", "paused", "exited", "dead"] = .ok (some l)) :
    ((∃ nodes, getDockerNodes env fuel s (some n) = .ok (s, some nodes)) ↔
      ∀ c ∈ l, c.Names ≠ []) ∧
    ((∃ c ∈ l, c.Names = []) →
      getDockerNodes env fuel s (some n) = .error Err.typeError) := by
  constructor
  · constructor
    · rintro ⟨nodes, hnodes⟩ c hc hnames
      obtain ⟨-, hdisp⟩ := getDockerNodes_some_ok hnodes
      rw [dispatchChild_eq_containersBranch hcv, hres, containersBranch_some] at hdisp
      by_cases hlen : l.length = 0
      · obtain rfl : l = [] := List.length_eq_zero.mp hlen
        cases hc
      · rw [if_neg hlen, containerNodes_err_of_empty ⟨c, hc, hnames⟩,
          except_error_bind] at hdisp
        exact absurd hdisp (by simp)
    · intro hnames
      by_cases hlen : l.length = 0
      · refine ⟨[], ?_⟩
        rw [getDockerNodes_some, dispatchChild_eq_containersBranch hcv, hres,
          containersBranch_some, if_pos hlen]
        rfl
      · obtain ⟨nodes, hnodes⟩ := containerNodes_ok_of_names hnames
        refine ⟨nodes, ?_⟩
        rw [getDockerNodes_some, dispatchChild_eq_containersBranch hcv, hres,
          containersBranch_some, if_neg hlen, hnodes, except_ok_bind]
        rfl
  · intro hex
    have hlen : ¬ l.length = 0 := by
      obtain ⟨c, hc, -⟩ := hex
      intro h0
      rw [List.length_eq_zero.mp h0] at hc
      cases hc
    rw [getDockerNodes_some, dispatchChild_eq_containersBranch hcv, hres,
      containersBranch_some, if_neg hlen, containerNodes_err_of_empty hex,
      except_error_bind]
    rfl

/-- C9 witness: with every name array non-empty the expansion
succeeds. -/
theorem c9_witness :
    ∃ nodes, getDockerNodes envC9w 1 initialState (some containersCatNode) =
      .ok (initialState, some nodes) :=
  (c9_containers_totality envC9w 1 initialState containersCatNode
    [{ Names := ["/ok"], Image := "alpine", Status := "Up", State := "running" }]
    rfl rfl).1.mpr (by decide)

/-- C9 counterexample: a descriptor whose only name is the empty string
violates the claimed precondition, yet the expansion is total on it, so
totality does not require a non-empty first entry. -/
theorem c9_counterexample :
    contDescC9.Names = [""] ∧
    getDockerNodes envC9 1 initialState (some containersCatNode) =
      .ok (initialState, some [nodeC9out]) := ⟨rfl, rfl⟩

/-- Claim C3 (amended): When the second call of the three-step token
exchange returns an empty body, the scoped access token stays
undefined; the third call is nonetheless still issued, with an
undefined bearer token, and the expansion yields zero repository/tag
nodes provided that unauthenticated call also returns an empty body:
with a non-empty third body, nodes are still produced. Both the
`azureRegistry` and the `azureRepository` expansions behave this way. -/
theorem c3_empty_second_body_behaviour :
    (∀ (env : Env) (fuel : Nat) (s : ProviderState) (n : DockerNode)
       (subItem : SubscriptionItem) (a r : String) (b1 b2 b3 : AcrBody),
      n.contextValue = "azureRegistry" → n.subscription = some subItem →
      env.acquireToken subItem.session = .ok (some a, some r) → a ≠ "" → r ≠ "" →
      env.httpPost ("https://" ++ n.label ++ "/oauth2/exchange")
        { grant_type := "access_token_refresh_token", service := n.label,
          tenant := subItem.subscription.tenantId,
          refresh_token := some r, access_token := some a } = .ok b1 →
      env.httpPost ("https://" ++ n.label ++ "/oauth2/token")
        { grant_type := "refresh_token", service := n.label,
          scope := some "registry:catalog:*",
          refresh_token := if b1.raw.length > 0 then b1.refresh_token else Option.none }
        = .ok b2 →
      b2.raw = "" →
      env.httpGet ("https://" ++ n.label ++ "/v2/_catalog") Option.none = .ok b3 →
      b3.raw = "" →
      getDockerNodes env fuel s (some n) = .ok (s, some [])) ∧
    (∀ (env : Env) (fuel : Nat) (s : ProviderState) (n : DockerNode)
       (subItem : SubscriptionItem) (a r : String) (b1 b2 b3 : AcrBody),
      n.contextValue = "azureRepository" → n.subscription = some subItem →
      env.acquireToken subItem.session = .ok (some a, some r) → a ≠ "" → r ≠ "" →
      env.httpPost ("https://" ++ n.repository.asStr ++ "/oauth2/exchange")
        { grant_type := "access_token_refresh_token", service := n.repository.asStr,
          tenant := subItem.subscription.tenantId,
          refresh_token := some r, access_token := some a } = .ok b1 →
      env.httpPost ("https://" ++ n.repository.asStr ++ "/oauth2/token")
        { grant_type := "refresh_token", service := n.repository.asStr,
          scope := some ("repository:" ++ n.label ++ ":pull"),
          refresh_token := if b1.raw.length > 0 then b1.refresh_token else Option.none }
        = .ok b2 →
      b2.raw = "" →
      env.httpGet ("https://" ++ n.repository.asStr ++ ("/v2/" ++ n.label ++ "/tags/list"))
        Option.none = .ok b3 →
      b3.raw = "" →
      getDockerNodes env fuel s (some n) = .ok (s, some [])) := by
  constructor
  · intro env fuel s n subItem a r b1 b2 b3 hcv hsub htok ha hr h1 h2 hb2 h3 hb3
    rw [getDockerNodes_some, dispatchChild_eq_azureRegistryBranch hcv hsub]
    unfold azureRegistryBranch
    rw [htok, except_ok_bind]
    rw [if_pos (show (truthy (some a, some r).1 && truthy (some a, some r).2) = true by
      simp [truthy, ha, hr])]
    simp [tokenDance, h1, h2, hb2, h3, hb3, except_ok_bind, Except.map]
  · intro env fuel s n subItem a r b1 b2 b3 hcv hsub htok ha hr h1 h2 hb2 h3 hb3
    rw [getDockerNodes_some, dispatchChild_eq_azureRepositoryBranch hcv hsub]
    unfold azureRepositoryBranch
    rw [htok, except_ok_bind]
    rw [if_pos (show (truthy (some a, some r).1 && truthy (some a, some r).2) = true by
      simp [truthy, ha, hr])]
    simp [tokenDance, h1, h2, hb2, h3, hb3, except_ok_bind, Except.map]

/-- C3 witness: the concrete registry run with an empty second body and
an empty unauthenticated catalog body yields zero nodes. -/
theorem c3_witness :
    getDockerNodes envC3w 1 initialState (some nodeRegA) =
      .ok (initialState, some []) :=
  c3_empty_second_body_behaviour.1 envC3w 1 initialState nodeRegA subItemA "at" "rt"
    { raw := "x", refresh_token := some "r1" } { raw := "" } { raw := "" }
    rfl rfl rfl (by decide) (by decide) rfl rfl rfl rfl rfl

/-- C3 counterexample: with the same empty second body, the third call
is made with an undefined bearer token, and because it answers with a
repository list the expansion produces one node, not zero. -/
theorem c3_counterexample :
    getDockerNodes envC3 1 initialState (some nodeRegA) =
      .ok (initialState, some [nodeC3out]) ∧ [nodeC3out].length ≠ 0 :=
  ⟨rfl, by decide⟩

end Theorems

end VscodeDocker
